import Mathlib

/-!
Verification of the request/response interaction core of the AI email
assistant frontend (src/frontend/src/App.js) as a shallow embedding.

The React component keeps eight pieces of state (useState hooks):
emailContent, senderName, senderEmail, replies, selectedReply,
editedReply, loading, error.  Every event handler in the component is
translated below as a pure function on a record holding that state.
The single network call (axios.post in generateReplies) is modelled by
an explicit outcome parameter describing what the environment returns.
-/

namespace AiEmail

/-- A reply draft as returned by the generation endpoint:
`{id, tone, content, preview}` (App.js lines 169-199 read these fields). -/
structure Reply where
  id : String
  tone : String
  content : String
  preview : String
deriving DecidableEq, Repr

/-- The component state: one field per useState hook (App.js lines 9-16). -/
structure AppState where
  emailContent : String
  senderName : String
  senderEmail : String
  replies : List Reply
  selectedReply : Option Reply
  editedReply : String
  loading : Bool
  error : String
deriving DecidableEq, Repr

/-- Initial state of the component: the useState defaults
(App.js lines 9-16). -/
def initApp : AppState :=
  { emailContent := ""
    senderName := ""
    senderEmail := ""
    replies := []
    selectedReply := none
    editedReply := ""
    loading := false
    error := "" }

/-- Outcome of the awaited axios.post call, as far as the code inspects it:
either a success body with a reply list (response.data.replies), or a
failure where the server responded with a non-success status
(err.response present, data.detail optionally a string), or a failure
where no response arrived at all (err.response absent). -/
inductive AxiosOutcome where
  | success (replies : List Reply)
  | serverError (detail : Option String)
  | networkError
deriving DecidableEq, Repr

/-- The literal message set on blank input (App.js line 20). -/
def validationErrorMsg : String := "Please enter an email to generate replies"

/-- The literal fallback error message (App.js line 39). -/
def genericFailureMsg : String := "Failed to generate replies. Please try again."

/-- JavaScript String.prototype.trim: removes leading and trailing
whitespace.  Modelled over the underlying character list so that it is
structurally recursive and kernel-evaluable. -/
def jsTrim (s : String) : String :=
  String.mk
    (((s.data.dropWhile Char.isWhitespace).reverse.dropWhile Char.isWhitespace).reverse)

/-- JavaScript `!emailContent.trim()` (App.js line 19): a string is falsy
exactly when it is empty, so the guard fires exactly when the trimmed
content is the empty string. -/
def isBlank (s : String) : Bool :=
  jsTrim s = ""

/-- JavaScript `x || y` where `x` is a string or undefined: an undefined or
empty string is falsy and yields the fallback, any other string is truthy
and is returned itself. -/
def jsOrElse (x : Option String) (fallback : String) : String :=
  match x with
  | some v => if v = "" then fallback else v
  | none => fallback

/-- JavaScript `s || null` for the payload fields
`sender_name: senderName || null` (App.js lines 32-33): the empty string is
falsy and becomes null (absent). -/
def jsStringOrNull (s : String) : Option String :=
  if s = "" then none else some s

/-- The JSON payload of the generation request (App.js lines 30-34). -/
structure EmailRequest where
  email_content : String
  sender_name : Option String
  sender_email : Option String
deriving DecidableEq, Repr

/-- Payload built from the current state (App.js lines 30-34). -/
def buildPayload (s : AppState) : EmailRequest :=
  { email_content := s.emailContent
    sender_name := jsStringOrNull s.senderName
    sender_email := jsStringOrNull s.senderEmail }

/-- The state updates performed before the request is issued
(App.js lines 24-27): setLoading(true), setError(""), setReplies([]),
setSelectedReply(null). -/
def submitPhase1 (a : AppState) : AppState :=
  { a with loading := true, error := "", replies := [], selectedReply := none }

/-- The state updates performed when the awaited request settles
(App.js lines 36-42): on success setReplies(response.data.replies); on
failure setError(err.response?.data?.detail || fallback); in both cases
the finally block runs setLoading(false). -/
def submitPhase2 (a : AppState) (outcome : AxiosOutcome) : AppState :=
  match outcome with
  | .success rs => { a with replies := rs, loading := false }
  | .serverError detail =>
      { a with error := jsOrElse detail genericFailureMsg, loading := false }
  | .networkError =>
      { a with error := jsOrElse none genericFailureMsg, loading := false }

/-- Result of one generateReplies invocation: the final component state and
whether a network request was issued. -/
structure SubmitResult where
  state : AppState
  networkCall : Bool
deriving DecidableEq, Repr

/-- The generateReplies handler (App.js lines 18-43), run to completion
against a given environment outcome.  If emailContent.trim() is falsy
(i.e. empty) it sets the validation message and returns without any
network activity; otherwise it performs the pre-request updates, issues
exactly one request and applies the settlement updates. -/
def generateReplies (s : AppState) (outcome : AxiosOutcome) : SubmitResult :=
  if isBlank s.emailContent then
    { state := { s with error := validationErrorMsg }, networkCall := false }
  else
    { state := submitPhase2 (submitPhase1 s) outcome, networkCall := true }

/-- The selectReply handler (App.js lines 45-48): setSelectedReply(reply)
and setEditedReply(reply.content). -/
def selectReply (s : AppState) (r : Reply) : AppState :=
  { s with selectedReply := some r, editedReply := r.content }

/-- The editor textarea onChange handler (App.js lines 220-225):
setEditedReply(e.target.value). -/
def editReply (s : AppState) (newText : String) : AppState :=
  { s with editedReply := newText }

/-- The Reset to Original button (App.js lines 234-239):
setEditedReply(selectedReply.content).  The button is only rendered while
selectedReply is non-null (line 206), so the none branch is unreachable
in the UI and leaves the state unchanged. -/
def resetReply (s : AppState) : AppState :=
  match s.selectedReply with
  | some r => { s with editedReply := r.content }
  | none => s

/-- The close button of the editor panel (App.js lines 212-217):
setSelectedReply(null). -/
def closeEditor (s : AppState) : AppState :=
  { s with selectedReply := none }

/-- Whether the editor panel is rendered: App.js line 206 guards it with
`selectedReply &&`. -/
def editorOpen (s : AppState) : Bool :=
  s.selectedReply.isSome

/-- A JavaScript value as far as the tone lookups can produce one: either a
string, or a truthy non-string member inherited from Object.prototype (a
built-in function, or for the key spelled underscore-underscore-proto the
Object.prototype object itself). -/
inductive JsValue where
  | str (s : String)
  | protoMember (name : String)
deriving DecidableEq, Repr

/-- The property keys every object literal inherits from Object.prototype:
property access on the literal consults the prototype chain, so these keys
yield the inherited member rather than undefined. -/
def objectProtoKeys : List String :=
  ["constructor", "hasOwnProperty", "isPrototypeOf", "propertyIsEnumerable",
   "toLocaleString", "toString", "valueOf", "__proto__",
   "__defineGetter__", "__defineSetter__", "__lookupGetter__", "__lookupSetter__"]

/-- JavaScript property access icons[tone] on the icons object literal of
getToneIcon (App.js lines 56-61): an own key yields its string value;
any other key naming an Object.prototype member yields that inherited
member via the prototype chain; every remaining key yields undefined,
modelled as none. -/
def iconsLookup (tone : String) : Option JsValue :=
  if tone = "professional" then some (JsValue.str "👔")
  else if tone = "friendly" then some (JsValue.str "😊")
  else if tone = "brief" then some (JsValue.str "⚡")
  else if tone = "detailed" then some (JsValue.str "📝")
  else if tone ∈ objectProtoKeys then some (JsValue.protoMember tone)
  else none

/-- JavaScript property access colors[tone] on the colors object literal
of getToneColor (App.js lines 66-71), with the same prototype-chain
behavior as iconsLookup. -/
def colorsLookup (tone : String) : Option JsValue :=
  if tone = "professional" then some (JsValue.str "bg-blue-50 border-blue-200")
  else if tone = "friendly" then some (JsValue.str "bg-green-50 border-green-200")
  else if tone = "brief" then some (JsValue.str "bg-yellow-50 border-yellow-200")
  else if tone = "detailed" then some (JsValue.str "bg-purple-50 border-purple-200")
  else if tone ∈ objectProtoKeys then some (JsValue.protoMember tone)
  else none

/-- JavaScript `v || fallback` for a lookup result: undefined and the empty
string are falsy and yield the fallback; a non-empty string is truthy, and
every inherited Object.prototype member (a function or an object) is
truthy, so the fallback does not fire for it. -/
def jsOrDefault (v : Option JsValue) (fallback : String) : JsValue :=
  match v with
  | some (JsValue.str s) => if s = "" then JsValue.str fallback else JsValue.str s
  | some (JsValue.protoMember n) => JsValue.protoMember n
  | none => JsValue.str fallback

/-- getToneIcon (App.js lines 55-63): lookup in the icons object literal,
then `||` with the generic icon. -/
def getToneIcon (tone : String) : JsValue :=
  jsOrDefault (iconsLookup tone) "📧"

/-- getToneColor (App.js lines 65-73): lookup in the colors object literal,
then `||` with the neutral classes. -/
def getToneColor (tone : String) : JsValue :=
  jsOrDefault (colorsLookup tone) "bg-gray-50 border-gray-200"

/-- Whether the platform grants the clipboard write. -/
inductive ClipboardOutcome where
  | granted
  | denied
deriving DecidableEq, Repr

/-- What one copyToClipboard call makes observable. -/
structure CopyResult where
  clipboardAfter : Option String
  alertMessage : Option String
  surfacedError : Option String
deriving DecidableEq, Repr

/-- The copyToClipboard handler (App.js lines 50-53).  The promise returned
by navigator.clipboard.writeText(text) is neither awaited nor given a
rejection handler, so a denial is never observed by the function; the
success alert fires unconditionally on the next line. -/
def copyToClipboard (text : String) (outcome : ClipboardOutcome) : CopyResult :=
  { clipboardAfter :=
      match outcome with
      | .granted => some text
      | .denied => none
    alertMessage := some "Reply copied to clipboard!"
    surfacedError := none }

/-- Whether an axios outcome is a failure (the catch block runs). -/
def AxiosOutcome.isFailure : AxiosOutcome → Bool
  | .success _ => false
  | .serverError _ => true
  | .networkError => true

/-- The user-visible message computed by the catch block (App.js line 39):
err.response?.data?.detail || fallback.  For a network failure the optional
chain is undefined, so the fallback is used.  For a success outcome the
catch block never runs; the value is the fallback by convention. -/
def catchMessage : AxiosOutcome → String
  | .serverError detail => jsOrElse detail genericFailureMsg
  | _ => genericFailureMsg

/-!
Event-level model of the page, for the in-flight request discipline.
The component is single-threaded and event-driven: the generateReplies
handler runs its synchronous prefix (validation and the pre-request
updates) atomically when the button is clicked, and the continuation
after the await runs atomically when the request settles.  The state of
the whole system is the component state plus the number of outstanding
requests dispatched but not yet settled.
-/

/-- Component state plus the number of requests in flight. -/
structure SysState where
  app : AppState
  outstanding : Nat
deriving DecidableEq, Repr

/-- System start: the freshly mounted component, no request in flight. -/
def initSys : SysState :=
  { app := initApp, outstanding := 0 }

/-- The discrete events the page reacts to: each interactive element of the
markup (App.js lines 75-252) and the settlement of a dispatched request. -/
inductive UiEvent where
  | clickGenerate
  | requestSettles (outcome : AxiosOutcome)
  | typeEmailContent (text : String)
  | typeSenderName (text : String)
  | typeSenderEmail (text : String)
  | clickReplyCard (r : Reply)
  | clickCloseEditor
  | typeEditedReply (text : String)
  | clickResetToOriginal
  | clickCopy (text : String) (outcome : ClipboardOutcome)

/-- One event step.  The generate button carries disabled with the loading
flag (App.js line 145), so a click while loading fires no handler; the
blank-content branch returns before any dispatch; otherwise the
pre-request updates run and one request is dispatched.  A settlement can
only occur while a request is outstanding and runs the continuation of
generateReplies, whose finally block clears the loading flag.  Every other
event runs the corresponding handler, none of which touches the loading
flag or the in-flight count. -/
def step (s : SysState) (e : UiEvent) : SysState :=
  match e with
  | .clickGenerate =>
      if s.app.loading then s
      else if isBlank s.app.emailContent then
        { s with app := { s.app with error := validationErrorMsg } }
      else
        { app := submitPhase1 s.app, outstanding := s.outstanding + 1 }
  | .requestSettles outcome =>
      if s.outstanding = 0 then s
      else { app := submitPhase2 s.app outcome, outstanding := s.outstanding - 1 }
  | .typeEmailContent t => { s with app := { s.app with emailContent := t } }
  | .typeSenderName t => { s with app := { s.app with senderName := t } }
  | .typeSenderEmail t => { s with app := { s.app with senderEmail := t } }
  | .clickReplyCard r => { s with app := selectReply s.app r }
  | .clickCloseEditor => { s with app := closeEditor s.app }
  | .typeEditedReply t => { s with app := editReply s.app t }
  | .clickResetToOriginal => { s with app := resetReply s.app }
  | .clickCopy _ _ => s

/-- The in-flight discipline: never more than one outstanding request, and
the loading flag is set exactly while one is outstanding. -/
def requestInvariant (s : SysState) : Prop :=
  s.outstanding ≤ 1 ∧ (s.app.loading = true ↔ s.outstanding = 1)

/-- A whitespace-only email content with sender fields populated. -/
def blankContentState : AppState :=
  { initApp with
      emailContent := "   "
      senderName := "John"
      senderEmail := "john@example.com" }

/-- A professional-tone reply draft, as in the spec scenario. -/
def replyPro : Reply :=
  { id := "1", tone := "professional", content := "Dear Alice", preview := "Dear" }

/-- A friendly-tone reply draft, as in the spec scenario. -/
def replyFriendly : Reply :=
  { id := "2", tone := "friendly", content := "Hey Alice", preview := "Hey" }

/-- A state with non-blank content and a previously displayed collection. -/
def loadedState : AppState :=
  { initApp with
      emailContent := "Hi, can we reschedule?"
      replies := [replyPro, replyFriendly] }

/-- A state that additionally has a selection and pending edits. -/
def editingState : AppState :=
  { loadedState with selectedReply := some replyPro, editedReply := "my draft" }

end AiEmail

namespace AiEmail

/-- C1: if emailContent trimmed is empty, generateReplies issues no network
call and sets the validation error message, for every state of the other
fields (sender name and email included) and every environment outcome. -/
theorem blank_submit_no_network (s : AppState) (outcome : AxiosOutcome)
    (h : isBlank s.emailContent = true) :
    (generateReplies s outcome).networkCall = false ∧
    (generateReplies s outcome).state.error = validationErrorMsg ∧
    (generateReplies s outcome).state.replies = s.replies := by
  simp [generateReplies, h]

/-- Witness for C1 at the whitespace-only input with sender fields set. -/
theorem blank_submit_no_network_witness :
    (isBlank blankContentState.emailContent = true) ∧
    (generateReplies blankContentState AxiosOutcome.networkError).networkCall = false :=
  ⟨by decide,
    (blank_submit_no_network blankContentState AxiosOutcome.networkError (by decide)).1⟩

/-- C2 counterexample: from a state whose collection holds two replies, a
failed request with detail rate limited sets that error message but leaves
the collection empty, not unchanged: generateReplies cleared it before the
request was issued. -/
theorem failed_submit_preserves_replies_cex :
    (generateReplies loadedState
        (AxiosOutcome.serverError (some "rate limited"))).state.error = "rate limited" ∧
    (generateReplies loadedState
        (AxiosOutcome.serverError (some "rate limited"))).state.replies = [] ∧
    (generateReplies loadedState
        (AxiosOutcome.serverError (some "rate limited"))).state.replies
      ≠ loadedState.replies := by
  refine ⟨by decide, by decide, by decide⟩

/-- C2 amended: for every failed submit with non-blank content, the reply
collection afterwards is empty (it was cleared when the request was
issued) and the selection is cleared; the classified error message is
installed and the form fields are preserved. -/
theorem failed_submit_state (s : AppState) (outcome : AxiosOutcome)
    (hb : isBlank s.emailContent = false)
    (hf : outcome.isFailure = true) :
    (generateReplies s outcome).state.replies = [] ∧
    (generateReplies s outcome).state.selectedReply = none ∧
    (generateReplies s outcome).state.error = catchMessage outcome ∧
    (generateReplies s outcome).state.emailContent = s.emailContent ∧
    (generateReplies s outcome).state.senderName = s.senderName ∧
    (generateReplies s outcome).state.senderEmail = s.senderEmail := by
  cases outcome with
  | success rs => simp [AxiosOutcome.isFailure] at hf
  | serverError detail =>
      simp [generateReplies, hb, submitPhase1, submitPhase2, catchMessage]
  | networkError =>
      simp [generateReplies, hb, submitPhase1, submitPhase2, catchMessage, jsOrElse]

/-- Witness for C2 amended at the rate limited scenario. -/
theorem failed_submit_state_witness :
    (isBlank loadedState.emailContent = false) ∧
    ((AxiosOutcome.serverError (some "rate limited")).isFailure = true) ∧
    (generateReplies loadedState
        (AxiosOutcome.serverError (some "rate limited"))).state.replies = [] :=
  ⟨by decide, by decide,
    (failed_submit_state loadedState (AxiosOutcome.serverError (some "rate limited"))
      (by decide) (by decide)).1⟩

/-- C4: for every successful response carrying a list of replies, submitting
from a state with non-blank content installs exactly that list (so the
collection size is its length) and leaves no reply selected, whatever
collection and selection existed before. -/
theorem success_installs_all_replies (s : AppState) (rs : List Reply)
    (h : isBlank s.emailContent = false) :
    (generateReplies s (AxiosOutcome.success rs)).state.replies = rs ∧
    (generateReplies s (AxiosOutcome.success rs)).state.replies.length = rs.length ∧
    (generateReplies s (AxiosOutcome.success rs)).state.selectedReply = none := by
  simp [generateReplies, h, submitPhase1, submitPhase2]

/-- Witness for C4 from a state that had a collection and a selection. -/
theorem success_installs_all_replies_witness :
    (isBlank editingState.emailContent = false) ∧
    (generateReplies editingState
        (AxiosOutcome.success [replyFriendly])).state.replies = [replyFriendly] ∧
    (generateReplies editingState
        (AxiosOutcome.success [replyFriendly])).state.selectedReply = none :=
  ⟨by decide,
    (success_installs_all_replies editingState [replyFriendly] (by decide)).1,
    (success_installs_all_replies editingState [replyFriendly] (by decide)).2.2⟩

/-- C5: selecting any reply present in the current collection installs it as
the selection and initializes the working copy to its content, whatever
session or pending edits existed before. -/
theorem select_initializes_editor (s : AppState) (r : Reply)
    (_h : r ∈ s.replies) :
    (selectReply s r).editedReply = r.content ∧
    (selectReply s r).selectedReply = some r := by
  simp [selectReply]

/-- Witness for C5: re-selecting the friendly reply after an edit
re-initializes the working copy to its content. -/
theorem select_initializes_editor_witness :
    (replyFriendly ∈ (editReply (selectReply loadedState replyFriendly) "junk").replies) ∧
    (selectReply (editReply (selectReply loadedState replyFriendly) "junk")
        replyFriendly).editedReply = replyFriendly.content :=
  ⟨by decide,
    (select_initializes_editor (editReply (selectReply loadedState replyFriendly) "junk")
      replyFriendly (by decide)).1⟩

/-- Editing only replaces the working copy: the selection is untouched by
any finite sequence of textarea edits. -/
lemma foldl_editReply_selectedReply (t : AppState) (edits : List String) :
    (edits.foldl editReply t).selectedReply = t.selectedReply := by
  induction edits generalizing t with
  | nil => rfl
  | cons e es ih => simpa [editReply] using ih (editReply t e)

/-- Resetting a state whose selection is r restores the working copy to the
content of r. -/
lemma resetReply_of_selected (t : AppState) (r : Reply)
    (h : t.selectedReply = some r) :
    (resetReply t).editedReply = r.content ∧
    (resetReply t).selectedReply = some r := by
  simp [resetReply, h]

/-- C6: after opening an editor session on a reply, any finite sequence of
edits followed by a single reset restores the working copy to exactly the
content captured at open, and neither edits nor the reset ever change the
selected reply (so the original content is never mutated). -/
theorem reset_restores_open_content (s : AppState) (r : Reply)
    (edits : List String) :
    (resetReply (edits.foldl editReply (selectReply s r))).editedReply = r.content ∧
    (edits.foldl editReply (selectReply s r)).selectedReply = some r ∧
    (resetReply (edits.foldl editReply (selectReply s r))).selectedReply = some r := by
  have hsel : (edits.foldl editReply (selectReply s r)).selectedReply = some r := by
    simpa [selectReply] using
      foldl_editReply_selectedReply (selectReply s r) edits
  obtain ⟨h1, h2⟩ := resetReply_of_selected (edits.foldl editReply (selectReply s r)) r hsel
  exact ⟨h1, hsel, h2⟩

/-- C7 counterexample: a failure whose body carries a present but empty
detail field yields the generic fallback message, not the empty detail
string verbatim, because the JavaScript or-operator treats the empty
string as falsy. -/
theorem error_detail_verbatim_cex :
    (generateReplies loadedState
        (AxiosOutcome.serverError (some ""))).state.error = genericFailureMsg ∧
    (generateReplies loadedState
        (AxiosOutcome.serverError (some ""))).state.error ≠ "" := by
  refine ⟨by decide, by decide⟩

/-- C7 amended: for every failed request after a non-blank submit, the
error message equals the detail field verbatim when it is present and
non-empty, and equals the fixed generic fallback otherwise: when the
detail is present but empty, when it is absent, and when no response was
received at all. -/
theorem failure_message_classification (s : AppState)
    (hb : isBlank s.emailContent = false) :
    (∀ d : String, d ≠ "" →
      (generateReplies s (AxiosOutcome.serverError (some d))).state.error = d) ∧
    (generateReplies s
        (AxiosOutcome.serverError (some ""))).state.error = genericFailureMsg ∧
    (generateReplies s (AxiosOutcome.serverError none)).state.error = genericFailureMsg ∧
    (generateReplies s AxiosOutcome.networkError).state.error = genericFailureMsg := by
  refine ⟨fun d hd => ?_, ?_, ?_, ?_⟩
  · simp [generateReplies, hb, submitPhase1, submitPhase2, jsOrElse, hd]
  · simp [generateReplies, hb, submitPhase1, submitPhase2, jsOrElse]
  · simp [generateReplies, hb, submitPhase1, submitPhase2, jsOrElse]
  · simp [generateReplies, hb, submitPhase1, submitPhase2, jsOrElse]

/-- Witness for C7 amended at the rate limited detail and at the
no-response failure. -/
theorem failure_message_classification_witness :
    (isBlank loadedState.emailContent = false) ∧
    (("rate limited" : String) ≠ "") ∧
    (generateReplies loadedState
        (AxiosOutcome.serverError (some "rate limited"))).state.error = "rate limited" ∧
    (generateReplies loadedState AxiosOutcome.networkError).state.error
      = genericFailureMsg :=
  ⟨by decide, by decide,
    (failure_message_classification loadedState (by decide)).1 "rate limited" (by decide),
    (failure_message_classification loadedState (by decide)).2.2.2⟩

/-- C8 counterexample: the tone string constructor is outside the known
set, yet neither lookup resolves to the default presentation: the object
literals inherit a truthy constructor member from Object.prototype through
the prototype chain, which defeats the or-fallback. -/
theorem unknown_tone_defaults_cex :
    (("constructor" : String) ∉ ["professional", "friendly", "brief", "detailed"]) ∧
    getToneIcon "constructor" = JsValue.protoMember "constructor" ∧
    getToneIcon "constructor" ≠ JsValue.str "📧" ∧
    getToneColor "constructor" ≠ JsValue.str "bg-gray-50 border-gray-200" := by
  refine ⟨by decide, by decide, by decide, by decide⟩

/-- C8 amended: every tone string outside the four known identifiers that
does not name an Object.prototype member resolves to the default icon and
the neutral style classes; for the handful of strings naming
Object.prototype members the lookups instead return the truthy inherited
member, so the fallback does not fire. -/
theorem unknown_tone_defaults (tone : String)
    (h : tone ∉ ["professional", "friendly", "brief", "detailed"])
    (hp : tone ∉ objectProtoKeys) :
    getToneIcon tone = JsValue.str "📧" ∧
    getToneColor tone = JsValue.str "bg-gray-50 border-gray-200" := by
  simp only [List.mem_cons, List.not_mem_nil, or_false, not_or] at h
  obtain ⟨h1, h2, h3, h4⟩ := h
  exact ⟨by simp [getToneIcon, iconsLookup, jsOrDefault, h1, h2, h3, h4, hp],
    by simp [getToneColor, colorsLookup, jsOrDefault, h1, h2, h3, h4, hp]⟩

/-- Witness for C8 amended at an unknown tone value outside the
Object.prototype keys. -/
theorem unknown_tone_defaults_witness :
    (("sarcastic" : String) ∉ ["professional", "friendly", "brief", "detailed"]) ∧
    (("sarcastic" : String) ∉ objectProtoKeys) ∧
    getToneIcon "sarcastic" = JsValue.str "📧" ∧
    getToneColor "sarcastic" = JsValue.str "bg-gray-50 border-gray-200" :=
  ⟨by decide, by decide,
    (unknown_tone_defaults "sarcastic" (by decide) (by decide)).1,
    (unknown_tone_defaults "sarcastic" (by decide) (by decide)).2⟩

/-- C9, evidence for the code bug: when the platform denies the clipboard
write, copyToClipboard surfaces no error, fires the success alert anyway,
and the text never reached the clipboard.  The failure is silently
swallowed because the write promise is neither awaited nor handled. -/
theorem clipboard_denial_not_surfaced :
    (copyToClipboard "Dear Alice" ClipboardOutcome.denied).surfacedError = none ∧
    (copyToClipboard "Dear Alice" ClipboardOutcome.denied).alertMessage
      = some "Reply copied to clipboard!" ∧
    (copyToClipboard "Dear Alice" ClipboardOutcome.denied).clipboardAfter = none :=
  ⟨rfl, rfl, rfl⟩

/-- C10: submitting with non-blank content clears the selection and closes
the editor panel before the request is issued, so after a failed submit no
reply is selected and no editor session is open. -/
theorem submit_clears_selection (s : AppState) (outcome : AxiosOutcome)
    (hb : isBlank s.emailContent = false)
    (hf : outcome.isFailure = true) :
    (submitPhase1 s).selectedReply = none ∧
    editorOpen (submitPhase1 s) = false ∧
    (generateReplies s outcome).state.selectedReply = none ∧
    editorOpen (generateReplies s outcome).state = false := by
  cases outcome <;>
    simp_all [generateReplies, hb, submitPhase1, submitPhase2, editorOpen,
      AxiosOutcome.isFailure]

/-- Witness for C10 from a state whose editor panel was open. -/
theorem submit_clears_selection_witness :
    (isBlank editingState.emailContent = false) ∧
    (AxiosOutcome.networkError.isFailure = true) ∧
    (editorOpen editingState = true) ∧
    (generateReplies editingState AxiosOutcome.networkError).state.selectedReply = none ∧
    editorOpen (generateReplies editingState AxiosOutcome.networkError).state = false :=
  ⟨by decide, by decide, by decide,
    (submit_clears_selection editingState AxiosOutcome.networkError
      (by decide) (by decide)).2.2.1,
    (submit_clears_selection editingState AxiosOutcome.networkError
      (by decide) (by decide)).2.2.2⟩

/-- The settlement continuation always ends with the finally block clearing
the loading flag, on success and on every failure. -/
lemma submitPhase2_loading (a : AppState) (o : AxiosOutcome) :
    (submitPhase2 a o).loading = false := by
  cases o <;> rfl

/-- The in-flight discipline holds at system start. -/
lemma requestInvariant_init : requestInvariant initSys := by
  constructor
  · decide
  · constructor
    · intro h; simp [initSys, initApp] at h
    · intro h; simp [initSys] at h

/-- One event step preserves the in-flight discipline. -/
lemma requestInvariant_step (s : SysState) (e : UiEvent)
    (h : requestInvariant s) : requestInvariant (step s e) := by
  obtain ⟨h1, h2⟩ := h
  cases e with
  | clickGenerate =>
      by_cases hl : s.app.loading = true
      · have hs : step s UiEvent.clickGenerate = s := by simp [step, hl]
        rw [hs]; exact ⟨h1, h2⟩
      · have hout : s.outstanding = 0 := by
          rcases Nat.lt_or_ge s.outstanding 1 with hlt | hge
          · omega
          · exact absurd (h2.mpr (by omega)) hl
        by_cases hb : isBlank s.app.emailContent = true
        · simp [step, hl, hb, hout, requestInvariant]
        · simp [step, hl, hb, hout, submitPhase1, requestInvariant]
  | requestSettles outcome =>
      by_cases hz : s.outstanding = 0
      · have hs : step s (UiEvent.requestSettles outcome) = s := by simp [step, hz]
        rw [hs]; exact ⟨h1, h2⟩
      · have hone : s.outstanding = 1 := by omega
        simp [step, hz, hone, requestInvariant, submitPhase2_loading]
  | typeEmailContent t => exact ⟨h1, h2⟩
  | typeSenderName t => exact ⟨h1, h2⟩
  | typeSenderEmail t => exact ⟨h1, h2⟩
  | clickReplyCard r => exact ⟨h1, by simpa [step, selectReply] using h2⟩
  | clickCloseEditor => exact ⟨h1, by simpa [step, closeEditor] using h2⟩
  | typeEditedReply t => exact ⟨h1, by simpa [step, editReply] using h2⟩
  | clickResetToOriginal =>
      refine ⟨h1, ?_⟩
      have hload : (step s UiEvent.clickResetToOriginal).app.loading = s.app.loading := by
        simp only [step, resetReply]
        cases s.app.selectedReply <;> rfl
      have hout : (step s UiEvent.clickResetToOriginal).outstanding = s.outstanding := by
        simp only [step]
      rw [hload, hout]; exact h2
  | clickCopy t o => exact ⟨h1, h2⟩

/-- C3: in every execution reachable from the initial state by any finite
sequence of events, at most one generation request is outstanding at any
time, and the loading flag that disables the submit button is set exactly
while a request is outstanding, so submission is re-enabled only once the
in-flight request has settled with success or failure. -/
theorem at_most_one_outstanding_request (events : List UiEvent) :
    (events.foldl step initSys).outstanding ≤ 1 ∧
    ((events.foldl step initSys).app.loading = true ↔
      (events.foldl step initSys).outstanding = 1) := by
  suffices h : ∀ t : SysState, requestInvariant t →
      requestInvariant (events.foldl step t) from h initSys requestInvariant_init
  induction events with
  | nil => intro t ht; exact ht
  | cons e es ih => intro t ht; exact ih (step t e) (requestInvariant_step t e ht)

end AiEmail
